import Mathlib

/-
Shallow embedding of the pixiv-api client (src/pixivapi/client.py) and
the pieces of its support modules that the verified properties need.
Machine integers are modelled as Nat/Int; HTTP and JSON parsing happen
in the external requests / json libraries, so an HTTP response is
modelled as its status code, raw body text and the outcome of parsing
the body as JSON.
-/

set_option autoImplicit false

namespace Pixivapi

/-- JSON values, as produced by the json library from a response body. -/
inductive Json where
  | null
  | bool (b : Bool)
  | num (n : Int)
  | str (s : String)
  | arr (xs : List Json)
  | obj (kvs : List (String × Json))

/-- The Python exceptions the client raises or lets propagate:
LoginError, TypeError, BadApiResponse (with its positional arguments:
an optional status message and an optional raw body text) and the
requires-login precondition error. -/
inductive PyErr where
  | loginError
  | typeError
  | badApiResponse (statusMsg : Option String) (body : Option String)
  | requiresLogin
deriving DecidableEq

/-- Outcome of a Python subscript `j[key]`: a KeyError when the value is a
dict without the key, a TypeError when the value is not a dict at all. -/
inductive KeyFail where
  | keyError
  | typeError
deriving DecidableEq

/-- How a subscript failure propagates out of the auth `try` block:
`except (RequestException, JSONDecodeError, KeyError)` turns a KeyError
into a LoginError, while a TypeError is not caught. -/
def KeyFail.toErr : KeyFail → PyErr
  | .keyError => .loginError
  | .typeError => .typeError

/-- First-match association-list lookup (Python dict access). -/
def jLookup : List (String × Json) → String → Option Json
  | [], _ => Option.none
  | (k, v) :: rest, key => if k = key then some v else jLookup rest key

/-- Python subscript `j[key]` on a JSON value. -/
def jGet (j : Json) (key : String) : Except KeyFail Json :=
  match j with
  | .obj kvs =>
    match jLookup kvs key with
    | some v => .ok v
    | Option.none => .error .keyError
  | _ => .error .typeError

mutual

/-- Python str() of a JSON scalar and repr-style rendering of composites,
used by the f-string that builds the Authorization header. -/
def pyRepr : Json → String
  | .null => "None"
  | .bool b => cond b "True" "False"
  | .num n => toString n
  | .str s => "\x27" ++ s ++ "\x27"
  | .arr xs => "[" ++ pyReprArr xs ++ "]"
  | .obj kvs => "\x7b" ++ pyReprObj kvs ++ "\x7d"

/-- Comma-separated repr of the elements of a JSON array. -/
def pyReprArr : List Json → String
  | [] => ""
  | [x] => pyRepr x
  | x :: xs => pyRepr x ++ ", " ++ pyReprArr xs

/-- Comma-separated repr of the entries of a JSON object. -/
def pyReprObj : List (String × Json) → String
  | [] => ""
  | [(k, v)] => "\x27" ++ k ++ "\x27: " ++ pyRepr v
  | (k, v) :: kvs => "\x27" ++ k ++ "\x27: " ++ pyRepr v ++ ", " ++ pyReprObj kvs

end

/-- Python str() as used in an f-string: a string renders as itself,
anything else by its repr-style rendering. -/
def pyStr : Json → String
  | .str s => s
  | j => pyRepr j

/-- An HTTP response as the transport hands it to the client: status code,
raw body text, and the outcome of the json library parsing that body
(`Option.none` when the body, an empty body included, is not valid JSON). -/
structure HttpResponse where
  status_code : Nat
  text : String
  jsonBody : Option Json

/-- Client._request_json on a received response: a status code whose
hundreds digit is 4 raises BadApiResponse with the status message and the
raw body text; otherwise a JSON-decode failure raises BadApiResponse with
no arguments, and a decoded body is returned unmodified. -/
def request_json (r : HttpResponse) : Except PyErr Json :=
  if r.status_code / 100 = 4 then
    .error (.badApiResponse (some ("Status code: " ++ toString r.status_code))
      (some r.text))
  else
    match r.jsonBody with
    | some j => .ok j
    | Option.none => .error (.badApiResponse Option.none Option.none)

/-- Python dict.update with one key: replace the value in place when the
key is present, append the pair otherwise. -/
def dictUpdate : List (String × String) → String → String → List (String × String)
  | [], k, v => [(k, v)]
  | (k1, v1) :: rest, k, v =>
    if k1 = k then (k, v) :: rest else (k1, v1) :: dictUpdate rest k v

/-- First-match lookup in a string-valued dict (session headers). -/
def alookup : List (String × String) → String → Option String
  | [], _ => Option.none
  | (k, v) :: rest, key => if k = key then some v else alookup rest key

/-- The mutable client fields touched by Client._make_auth_request, plus
the session default headers. -/
structure AuthState where
  account : Option Json
  access_token : Option Json
  refresh_token : Option Json
  headers : List (String × String)

/-- Outcome of the auth POST as the client observes it: a transport
failure (RequestException), a JSON-decode failure of .json(), or a
decoded JSON body. -/
inductive AuthResponse where
  | transportError
  | decodeError
  | ok (body : Json)

/-- Client._make_auth_request: post to the OAuth endpoint, decode JSON,
then assign account, access_token and refresh_token in that order from
r[response][user], r[response][access_token], r[response][refresh_token],
and finally update the session Authorization header from an f-string.
RequestException, JSONDecodeError and KeyError are caught and re-raised
as LoginError; assignments made before a failing subscript stay
committed, exactly as in the source. Returns the final state together
with the raised exception, if any. -/
def make_auth_request (st : AuthState) (resp : AuthResponse) :
    AuthState × Option PyErr :=
  match resp with
  | .transportError => (st, some .loginError)
  | .decodeError => (st, some .loginError)
  | .ok r =>
    match jGet r "response" with
    | .error e => (st, some e.toErr)
    | .ok rsp =>
      match jGet rsp "user" with
      | .error e => (st, some e.toErr)
      | .ok user =>
        let st1 := { st with account := some user }
        match jGet rsp "access_token" with
        | .error e => (st1, some e.toErr)
        | .ok tok =>
          let st2 := { st1 with access_token := some tok }
          match jGet rsp "refresh_token" with
          | .error e => (st2, some e.toErr)
          | .ok rtok =>
            let st3 := { st2 with refresh_token := some rtok }
            let st4 := { st3 with
              headers := dictUpdate st3.headers "Authorization"
                ("Bearer " ++ pyStr tok) }
            (st4, Option.none)

/-- A Python value placed in the params dict of an endpoint method:
a string, an int, None, or a sequence (the tuple at the
min_bookmark_id_for_recent_illust entry). -/
inductive PValue where
  | str (s : String)
  | num (n : Int)
  | none
  | seq (vs : List PValue)

/-- How the requests transport encodes one scalar params value, or skips
it when it is None. -/
def encodeScalar : PValue → Option String
  | .str s => some s
  | .num n => some (toString n)
  | .none => Option.none
  | .seq _ => Option.none

/-- The strings one params entry contributes to the encoded query: a
None value contributes nothing, a sequence contributes its non-None
elements in order (requests \x5fencode\x5fparams behaviour). -/
def encodeValue : PValue → List String
  | .str s => [s]
  | .num n => [toString n]
  | .none => []
  | .seq vs => vs.filterMap encodeScalar

/-- Models the parameter encoding of the requests transport: each params
dict entry contributes one encoded pair per value encodeValue keeps, so
keys whose value is None (or a sequence of None) are absent from the
outgoing request. -/
def encodeParams : List (String × PValue) → List (String × String)
  | [] => []
  | (k, v) :: rest => (encodeValue v).map (fun s => (k, s)) ++ encodeParams rest

/-- The parameter names that actually appear in the outgoing request. -/
def requestKeys (ps : List (String × PValue)) : List String :=
  (encodeParams ps).map Prod.fst

/-- An int-or-None argument as a params value. -/
def optInt : Option Int → PValue
  | some n => .num n
  | Option.none => .none

/-- A string-or-None argument as a params value. -/
def optStr : Option String → PValue
  | some s => .str s
  | Option.none => .none

/-- Modelled from the spec: the enums of pixivapi.enums (file not
present) are closed sets of wire string constants; each enum member is
represented by its wire value. -/
structure SearchTarget where
  value : String

/-- Modelled from the spec: the sort-order enum of pixivapi.enums (file
not present), represented by its wire value. -/
structure SortMode where
  value : String

/-- Modelled from the spec: the duration enum of pixivapi.enums (file
not present), represented by its wire value. -/
structure Duration where
  value : String

/-- Modelled from the spec: the visibility enum of pixivapi.enums (file
not present): public or private, represented by its wire value. -/
structure Visibility where
  value : String

/-- Modelled from the spec: the content-type enum of pixivapi.enums
(file not present), represented by its wire value. -/
structure ContentType where
  value : String

/-- Modelled from the spec: the ranking-mode enum of pixivapi.enums
(file not present), represented by its wire value. -/
structure RankingMode where
  value : String

/-- Modelled from the spec: format_bool from pixivapi.common (file not
present) maps each Bool to the exact string token the API expects; the
tokens themselves are not given by the spec, so a fixed representative
pair is used. -/
def format_bool (b : Bool) : String :=
  if b then "true" else "false"

/-- The params dict built by Client.search_illustrations. -/
def search_illustrations_params (word : String) (search_target : SearchTarget)
    (sort : SortMode) (duration : Option Duration) (offset : Option Int) :
    List (String × PValue) :=
  [("word", .str word),
   ("search_target", .str search_target.value),
   ("sort", .str sort.value),
   ("duration", match duration with
     | some d => .str d.value
     | Option.none => .none),
   ("offset", optInt offset),
   ("filter", .str "for_ios")]

/-- The params dict built by Client.fetch_illustration_comments. -/
def fetch_illustration_comments_params (illustration_id : Int)
    (offset : Option Int) (include_total_comments : Bool) :
    List (String × PValue) :=
  [("illust_id", .num illustration_id),
   ("offset", optInt offset),
   ("include_total_comments", .str (format_bool include_total_comments))]

/-- The params dict built by Client.fetch_illustration_related. -/
def fetch_illustration_related_params (illustration_id : Int)
    (offset : Option Int) : List (String × PValue) :=
  [("illust_id", .num illustration_id),
   ("offset", optInt offset)]

/-- The params dict built by Client.fetch_illustrations_following: the
source sends only the restrict value and never uses its offset
argument. -/
def fetch_illustrations_following_params (visibility : Visibility)
    (offset : Option Int) : List (String × PValue) :=
  let _ := offset
  [("restrict", .str visibility.value)]

/-- The params dict built by Client.fetch_illustrations_recommended:
note the one-element tuple the source wraps around
min_bookmark_id_for_recent_illustrations, and the truthiness test on
bookmark_illust_ids before joining the ids with commas. -/
def fetch_illustrations_recommended_params (content_type : ContentType)
    (include_ranking_illustrations : Bool)
    (max_bookmark_id_for_recommend : Option Int)
    (min_bookmark_id_for_recent_illustrations : Option Int)
    (offset : Option Int) (bookmark_illust_ids : Option (List Int))
    (include_ranking_label : Bool) : List (String × PValue) :=
  let bids : PValue :=
    match bookmark_illust_ids with
    | some (x :: xs) =>
      .str (String.intercalate "," ((x :: xs).map toString))
    | some [] => .seq []
    | Option.none => .none
  [("content_type", .str content_type.value),
   ("include_ranking_label", .str (format_bool include_ranking_label)),
   ("max_bookmark_id_for_recommend", optInt max_bookmark_id_for_recommend),
   ("min_bookmark_id_for_recent_illust",
     .seq [optInt min_bookmark_id_for_recent_illustrations]),
   ("offset", optInt offset),
   ("include_ranking_illusts",
     .str (format_bool include_ranking_illustrations)),
   ("bookmark_illust_ids", bids)]

/-- The params dict built by Client.fetch_illustrations_ranking. -/
def fetch_illustrations_ranking_params (mode : RankingMode)
    (date : Option String) (offset : Option Int) : List (String × PValue) :=
  [("mode", .str mode.value),
   ("date", optStr date),
   ("offset", optInt offset),
   ("filter", .str "for_ios")]

/-- The params dict built by Client.fetch_user_illustrations. -/
def fetch_user_illustrations_params (user_id : Int)
    (type_ : Option ContentType) (offset : Option Int) :
    List (String × PValue) :=
  [("user_id", .num user_id),
   ("type", match type_ with
     | some t => .str t.value
     | Option.none => .none),
   ("offset", optInt offset),
   ("filter", .str "for_ios")]

/-- The params dict built by Client.fetch_user_bookmarks. -/
def fetch_user_bookmarks_params (user_id : Int) (visibility : Visibility)
    (max_bookmark_id : Option Int) (tag : Option String) :
    List (String × PValue) :=
  [("user_id", .num user_id),
   ("restrict", .str visibility.value),
   ("max_bookmark_id", optInt max_bookmark_id),
   ("tag", optStr tag)]

/-- The params dict built by Client.fetch_user_bookmark_tags. -/
def fetch_user_bookmark_tags_params (visibility : Visibility)
    (offset : Option Int) : List (String × PValue) :=
  [("restrict", .str visibility.value),
   ("offset", optInt offset)]

/-- The params dict built by Client.fetch_following. -/
def fetch_following_params (user_id : Int) (visibility : Visibility)
    (offset : Option Int) : List (String × PValue) :=
  [("user_id", .num user_id),
   ("restrict", .str visibility.value),
   ("offset", optInt offset)]

/-- The params dict built by Client.fetch_followers. -/
def fetch_followers_params (user_id : Int) (offset : Option Int) :
    List (String × PValue) :=
  [("user_id", .num user_id),
   ("offset", optInt offset),
   ("filter", .str "for_ios")]

/-- The params dict built by Client.fetch_my_pixiv. -/
def fetch_my_pixiv_params (user_id : Int) (offset : Option Int) :
    List (String × PValue) :=
  [("user_id", .num user_id),
   ("offset", optInt offset),
   ("filter", .str "for_ios")]

/-- A pagination-cursor value: a number when the encoded value is
numeric, the raw string otherwise. -/
inductive QsVal where
  | num (n : Nat)
  | str (s : String)
deriving DecidableEq

/-- The characters after the first occurrence of a separator, or None
when the separator does not occur. -/
def afterChar (c : Char) : List Char → Option (List Char)
  | [] => Option.none
  | x :: xs => if x = c then some xs else afterChar c xs

/-- Split a character list on every occurrence of a separator. -/
def splitChar (c : Char) : List Char → List (List Char)
  | [] => [[]]
  | x :: xs =>
    match splitChar c xs with
    | [] => [[x]]
    | y :: ys => if x = c then [] :: y :: ys else (x :: y) :: ys

/-- Split a character list at the first occurrence of a separator, or
None when the separator does not occur. -/
def breakAtChar (c : Char) : List Char → Option (List Char × List Char)
  | [] => Option.none
  | x :: xs =>
    if x = c then some ([], xs)
    else
      match breakAtChar c xs with
      | some lr => some (x :: lr.1, lr.2)
      | Option.none => Option.none

/-- The key-value pairs of the query string of a URL: everything after
the first question mark, split on ampersands, each piece split at its
first equals sign (pieces without one are dropped). -/
def queryPairs (url : String) : List (String × String) :=
  match afterChar ('?') url.data with
  | Option.none => []
  | some q =>
    (splitChar ('&') q).filterMap (fun kv =>
      match breakAtChar ('=') kv with
      | some lr => some (String.mk lr.1, String.mk lr.2)
      | Option.none => Option.none)

/-- The numeric reading of a character list: its decimal value when it
is nonempty and all digits, None otherwise. -/
def digitsToNat : List Char → Option Nat
  | [] => Option.none
  | cs =>
    if cs.all Char.isDigit then
      some (cs.foldl (fun a c => a * 10 + (c.toNat - 48)) 0)
    else Option.none

/-- First-match lookup among query pairs. -/
def qsLookup : List (String × String) → String → Option String
  | [], _ => Option.none
  | (k, v) :: rest, key => if k = key then some v else qsLookup rest key

/-- Modelled from the spec: parse_qs from pixivapi.common (file not
present). It parses the next-page URL query string and returns the
value of the named parameter, numeric-looking values as numbers, or
None when the URL is absent or the parameter is missing. -/
def parse_qs (next_url : Option String) (param : String) : Option QsVal :=
  match next_url with
  | Option.none => Option.none
  | some url =>
    match qsLookup (queryPairs url) param with
    | Option.none => Option.none
    | some v =>
      match digitsToNat v.data with
      | some n => some (.num n)
      | Option.none => some (.str v)

/-- Modelled from the spec: the require_auth decorator from
pixivapi.common (file not present). Per the spec, a gated endpoint
method called before any successful authentication must fail fast with
the requires-login signal before any network call is made; otherwise
the method body runs. The second component counts the transport calls
performed. -/
def require_auth {α : Type} (authenticated : Bool)
    (body : Unit → Except PyErr α × Nat) : Except PyErr α × Nat :=
  if authenticated then body () else (.error .requiresLogin, 0)

/-- Client.search_illustrations up to its network call: the require_auth
gate, then one transport call whose response goes through
Client.\x5frequest_json. `authenticated` records whether a successful
login or refresh has completed; `resp` is the response the transport
would return for the one request the body issues. -/
def search_illustrations_gated (authenticated : Bool) (word : String)
    (search_target : SearchTarget) (sort : SortMode)
    (duration : Option Duration) (offset : Option Int)
    (resp : HttpResponse) : Except PyErr Json × Nat :=
  let _ := search_illustrations_params word search_target sort duration offset
  require_auth authenticated (fun _ => (request_json resp, 1))

/-- Modelled from the spec: the Illustration model of pixivapi.models
(file not present) wraps the spread JSON fields and holds an optional
back-reference to the client that fetched it (here the client id),
absent when the constructor is called without a client argument. -/
structure Illustration where
  fields : List (String × Json)
  client : Option Nat

/-- One entry of the list Client.fetch_trending_tags returns: the
illustration, the tag name and its translation. -/
structure TrendingTag where
  illustration : Illustration
  tag : Json
  translated_name : Json

/-- The dict fields a JSON value spreads into a constructor call, or a
TypeError when it is not a dict. -/
def asObj : Json → Except KeyFail (List (String × Json))
  | .obj kvs => .ok kvs
  | _ => .error .typeError

/-- The per-entry mapping of Client.fetch_trending_tags: each trending
entry yields Illustration(**trending[illust]) — with no client argument,
exactly as in the source — plus trending[tag] and
trending[translated_name]. `self` is the id of the fetching client; the
source never passes it to the Illustration constructor. -/
def trending_entries (self : Nat) : List Json → Except KeyFail (List TrendingTag)
  | [] => .ok []
  | tr :: rest => do
    let _ := self
    let il ← jGet tr "illust"
    let fs ← asObj il
    let tg ← jGet tr "tag"
    let tn ← jGet tr "translated_name"
    let tail ← trending_entries self rest
    .ok (⟨⟨fs, Option.none⟩, tg, tn⟩ :: tail)

/-- Client.fetch_trending_tags applied to the decoded JSON response:
iterate over response[trend_tags] building the result list. -/
def fetch_trending_tags (self : Nat) (response : Json) :
    Except KeyFail (List TrendingTag) :=
  match jGet response "trend_tags" with
  | .error e => .error e
  | .ok (.arr items) => trending_entries self items
  | .ok _ => .error .typeError

/-- The Illustration built by Client.search_illustrations from one
element of response[illusts]: the source passes client=self here, so
the back-reference is populated. -/
def search_result_illustration (self : Nat) (illust : Json) :
    Except KeyFail Illustration := do
  let fs ← asObj illust
  .ok ⟨fs, some self⟩

/-- C2: request_json raises BadApiResponse because of the status code
if and only if the status code hundreds digit is 4, and then the error
carries the status code and the raw body text; a 404 raises the error
with status code 404 and the literal body text; 5xx and 2xx statuses
are not distinguished by the status check. -/
theorem claim_C2_request_json_status :
    (∀ r : HttpResponse,
      (∃ m b, request_json r = .error (.badApiResponse (some m) (some b))) ↔
        r.status_code / 100 = 4) ∧
    (∀ r : HttpResponse, r.status_code / 100 = 4 →
      request_json r = .error (.badApiResponse
        (some ("Status code: " ++ toString r.status_code)) (some r.text))) ∧
    (∀ (t : String) (jb : Option Json),
      request_json ⟨404, t, jb⟩ =
        .error (.badApiResponse (some "Status code: 404") (some t))) ∧
    (∀ r r2 : HttpResponse, r.status_code / 100 ≠ 4 → r2.status_code / 100 ≠ 4 →
      r.jsonBody = r2.jsonBody → request_json r = request_json r2) := by
  refine ⟨?_, ?_, ?_, ?_⟩
  · intro r
    constructor
    · rintro ⟨m, b, hmb⟩
      by_contra h4
      rcases hj : r.jsonBody with _ | j <;> simp [request_json, h4, hj] at hmb
    · intro h4
      exact ⟨"Status code: " ++ toString r.status_code, r.text,
        by simp [request_json, h4]⟩
  · intro r h4
    simp [request_json, h4]
  · have h404 : ("Status code: " ++ toString (404 : Nat)) = "Status code: 404" :=
      rfl
    intro t jb
    simp [request_json, h404]
  · intro r r2 h4 h42 hj
    simp only [request_json, if_neg h4, if_neg h42, hj]

/-- C2 witness: concrete instances of the status classification. -/
theorem claim_C2_request_json_status_witness :
    request_json ⟨404, "not found", Option.none⟩ =
      .error (.badApiResponse (some "Status code: 404") (some "not found")) ∧
    request_json ⟨500, "a", some .null⟩ = request_json ⟨200, "b", some .null⟩ ∧
    request_json ⟨403, "x", some .null⟩ =
      .error (.badApiResponse (some "Status code: 403") (some "x")) :=
  ⟨claim_C2_request_json_status.2.2.1 "not found" Option.none,
   claim_C2_request_json_status.2.2.2 ⟨500, "a", some .null⟩
     ⟨200, "b", some .null⟩ (by decide) (by decide) rfl,
   claim_C2_request_json_status.2.1 ⟨403, "x", some .null⟩ (by decide)⟩

/-- C3: on a status whose hundreds digit is not 4, request_json raises
BadApiResponse with no arguments exactly when the body fails to parse
as JSON, and otherwise returns the parsed value unmodified. -/
theorem claim_C3_request_json_parse (r : HttpResponse)
    (h4 : r.status_code / 100 ≠ 4) :
    ((request_json r = .error (.badApiResponse Option.none Option.none)) ↔
      r.jsonBody = Option.none) ∧
    (∀ j, r.jsonBody = some j → request_json r = .ok j) := by
  constructor
  · rcases hj : r.jsonBody with _ | j <;> simp [request_json, h4, hj]
  · intro j hj
    simp [request_json, h4, hj]

/-- C3 witness: a 200 with body not valid JSON raises the bare error, a
200 with a decoded body returns it. -/
theorem claim_C3_request_json_parse_witness :
    (200 : Nat) / 100 ≠ 4 ∧
    request_json ⟨200, "not json", Option.none⟩ =
      .error (.badApiResponse Option.none Option.none) ∧
    request_json ⟨200, "x", some (Json.str "x")⟩ = .ok (Json.str "x") :=
  ⟨by decide,
   (claim_C3_request_json_parse ⟨200, "not json", Option.none⟩ (by decide)).1.mpr
     rfl,
   (claim_C3_request_json_parse ⟨200, "x", some (Json.str "x")⟩ (by decide)).2
     (Json.str "x") rfl⟩

/-- C1 counterexample: a decoded auth response that contains
response.user and response.access_token but no response.refresh_token
makes the call fail with LoginError, yet the access_token field of a
client whose access_token was None beforehand has been changed — so the
claim that the token fields remain exactly what they were on every
failing call is false. -/
theorem claim_C1_partial_state_counterexample :
    (make_auth_request ⟨Option.none, Option.none, Option.none, []⟩
        (.ok (Json.obj [("response", Json.obj
          [("user", Json.null), ("access_token", Json.str "A")])]))).2 =
      some PyErr.loginError ∧
    (make_auth_request ⟨Option.none, Option.none, Option.none, []⟩
        (.ok (Json.obj [("response", Json.obj
          [("user", Json.null), ("access_token", Json.str "A")])]))).1.access_token =
      some (Json.str "A") ∧
    some (Json.str "A") ≠ (Option.none : Option Json) :=
  ⟨rfl, rfl, Option.some_ne_none _⟩

/-- C1 amended: on a transport or JSON-decode failure, and on a failing
subscript before any assignment, no state is committed; but a missing
access_token key leaves the account field updated, and a missing
refresh_token key leaves both account and access_token updated; the
headers are never updated on a failing call. -/
theorem claim_C1_failure_state :
    (∀ st, make_auth_request st .transportError = (st, some .loginError)) ∧
    (∀ st, make_auth_request st .decodeError = (st, some .loginError)) ∧
    (∀ st r e, jGet r "response" = .error e →
      make_auth_request st (.ok r) = (st, some e.toErr)) ∧
    (∀ st r rsp e, jGet r "response" = .ok rsp →
      jGet rsp "user" = .error e →
      make_auth_request st (.ok r) = (st, some e.toErr)) ∧
    (∀ st r rsp u e, jGet r "response" = .ok rsp →
      jGet rsp "user" = .ok u →
      jGet rsp "access_token" = .error e →
      make_auth_request st (.ok r) =
        ({ st with account := some u }, some e.toErr)) ∧
    (∀ st r rsp u a e, jGet r "response" = .ok rsp →
      jGet rsp "user" = .ok u →
      jGet rsp "access_token" = .ok a →
      jGet rsp "refresh_token" = .error e →
      make_auth_request st (.ok r) =
        ({ st with account := some u, access_token := some a },
          some e.toErr)) := by
  refine ⟨fun st => rfl, fun st => rfl, ?_, ?_, ?_, ?_⟩
  · intro st r e h
    simp [make_auth_request, h]
  · intro st r rsp e h1 h2
    simp [make_auth_request, h1, h2]
  · intro st r rsp u e h1 h2 h3
    simp [make_auth_request, h1, h2, h3]
  · intro st r rsp u a e h1 h2 h3 h4
    simp [make_auth_request, h1, h2, h3, h4]

/-- C1 amended witness: the missing-refresh-token case at a concrete
state and response. -/
theorem claim_C1_failure_state_witness :
    make_auth_request ⟨Option.none, Option.none, Option.none, []⟩
        (.ok (Json.obj [("response", Json.obj
          [("user", Json.num 9), ("access_token", Json.str "B")])])) =
      (⟨some (Json.num 9), some (Json.str "B"), Option.none, []⟩,
        some PyErr.loginError) :=
  claim_C1_failure_state.2.2.2.2.2
    ⟨Option.none, Option.none, Option.none, []⟩
    (Json.obj [("response", Json.obj
      [("user", Json.num 9), ("access_token", Json.str "B")])])
    (Json.obj [("user", Json.num 9), ("access_token", Json.str "B")])
    (Json.num 9) (Json.str "B") .keyError rfl rfl rfl rfl

/-- Looking up a key right after dict.update with that key yields the
value just written. -/
theorem alookup_dictUpdate (hs : List (String × String)) (k v : String) :
    alookup (dictUpdate hs k v) k = some v := by
  induction hs with
  | nil => simp [dictUpdate, alookup]
  | cons p rest ih =>
    obtain ⟨k1, v1⟩ := p
    by_cases h : k1 = k
    · simp [dictUpdate, h, alookup]
    · simp [dictUpdate, h, alookup, ih]

/-- C5: after a successful auth exchange the session headers carry an
Authorization value of Bearer followed by the access token from that
response, and the access_token and refresh_token fields equal the
tokens from that response. -/
theorem claim_C5_login_success_state (st : AuthState) (r rsp u a rt : Json)
    (h1 : jGet r "response" = .ok rsp)
    (h2 : jGet rsp "user" = .ok u)
    (h3 : jGet rsp "access_token" = .ok a)
    (h4 : jGet rsp "refresh_token" = .ok rt) :
    (make_auth_request st (.ok r)).2 = Option.none ∧
    (make_auth_request st (.ok r)).1.access_token = some a ∧
    (make_auth_request st (.ok r)).1.refresh_token = some rt ∧
    alookup (make_auth_request st (.ok r)).1.headers "Authorization" =
      some ("Bearer " ++ pyStr a) := by
  refine ⟨?_, ?_, ?_, ?_⟩ <;>
    simp [make_auth_request, h1, h2, h3, h4, alookup_dictUpdate]

/-- C5 witness: a concrete successful exchange, starting from the
freshly-constructed client state. -/
theorem claim_C5_login_success_state_witness :
    (make_auth_request ⟨Option.none, Option.none, Option.none, []⟩
        (.ok (Json.obj [("response", Json.obj
          [("user", Json.null), ("access_token", Json.str "AT"),
           ("refresh_token", Json.str "RT")])]))).2 = Option.none ∧
    (make_auth_request ⟨Option.none, Option.none, Option.none, []⟩
        (.ok (Json.obj [("response", Json.obj
          [("user", Json.null), ("access_token", Json.str "AT"),
           ("refresh_token", Json.str "RT")])]))).1.access_token =
      some (Json.str "AT") ∧
    (make_auth_request ⟨Option.none, Option.none, Option.none, []⟩
        (.ok (Json.obj [("response", Json.obj
          [("user", Json.null), ("access_token", Json.str "AT"),
           ("refresh_token", Json.str "RT")])]))).1.refresh_token =
      some (Json.str "RT") ∧
    alookup (make_auth_request ⟨Option.none, Option.none, Option.none, []⟩
        (.ok (Json.obj [("response", Json.obj
          [("user", Json.null), ("access_token", Json.str "AT"),
           ("refresh_token", Json.str "RT")])]))).1.headers "Authorization" =
      some "Bearer AT" :=
  claim_C5_login_success_state ⟨Option.none, Option.none, Option.none, []⟩
    (Json.obj [("response", Json.obj
      [("user", Json.null), ("access_token", Json.str "AT"),
       ("refresh_token", Json.str "RT")])])
    (Json.obj [("user", Json.null), ("access_token", Json.str "AT"),
      ("refresh_token", Json.str "RT")])
    Json.null (Json.str "AT") (Json.str "RT") rfl rfl rfl rfl

/-- C9: any transport failure, JSON-decode failure or missing expected
key in the OAuth exchange raises LoginError, and a decoded response
containing all expected keys raises no error at all. -/
theorem claim_C9_login_error_normalization :
    (∀ st, (make_auth_request st .transportError).2 = some .loginError) ∧
    (∀ st, (make_auth_request st .decodeError).2 = some .loginError) ∧
    (∀ st r, jGet r "response" = .error .keyError →
      (make_auth_request st (.ok r)).2 = some .loginError) ∧
    (∀ st r rsp, jGet r "response" = .ok rsp →
      jGet rsp "user" = .error .keyError →
      (make_auth_request st (.ok r)).2 = some .loginError) ∧
    (∀ st r rsp u, jGet r "response" = .ok rsp →
      jGet rsp "user" = .ok u →
      jGet rsp "access_token" = .error .keyError →
      (make_auth_request st (.ok r)).2 = some .loginError) ∧
    (∀ st r rsp u a, jGet r "response" = .ok rsp →
      jGet rsp "user" = .ok u →
      jGet rsp "access_token" = .ok a →
      jGet rsp "refresh_token" = .error .keyError →
      (make_auth_request st (.ok r)).2 = some .loginError) ∧
    (∀ st r rsp u a rt, jGet r "response" = .ok rsp →
      jGet rsp "user" = .ok u →
      jGet rsp "access_token" = .ok a →
      jGet rsp "refresh_token" = .ok rt →
      (make_auth_request st (.ok r)).2 = Option.none) := by
  refine ⟨fun st => rfl, fun st => rfl, ?_, ?_, ?_, ?_, ?_⟩
  · intro st r h
    simp [make_auth_request, h, KeyFail.toErr]
  · intro st r rsp h1 h2
    simp [make_auth_request, h1, h2, KeyFail.toErr]
  · intro st r rsp u h1 h2 h3
    simp [make_auth_request, h1, h2, h3, KeyFail.toErr]
  · intro st r rsp u a h1 h2 h3 h4
    simp [make_auth_request, h1, h2, h3, h4, KeyFail.toErr]
  · intro st r rsp u a rt h1 h2 h3 h4
    simp [make_auth_request, h1, h2, h3, h4]

/-- C9 witness: a missing-user response raises LoginError and a complete
response raises nothing, at concrete inputs. -/
theorem claim_C9_login_error_normalization_witness :
    (make_auth_request ⟨Option.none, Option.none, Option.none, []⟩
        (.ok (Json.obj [("response", Json.obj [])]))).2 =
      some PyErr.loginError ∧
    (make_auth_request ⟨Option.none, Option.none, Option.none, []⟩
        (.ok (Json.obj [("response", Json.obj
          [("user", Json.null), ("access_token", Json.str "a"),
           ("refresh_token", Json.str "r")])]))).2 = Option.none :=
  ⟨claim_C9_login_error_normalization.2.2.2.1
      ⟨Option.none, Option.none, Option.none, []⟩
      (Json.obj [("response", Json.obj [])]) (Json.obj []) rfl rfl,
   claim_C9_login_error_normalization.2.2.2.2.2.2
      ⟨Option.none, Option.none, Option.none, []⟩
      (Json.obj [("response", Json.obj
        [("user", Json.null), ("access_token", Json.str "a"),
         ("refresh_token", Json.str "r")])])
      (Json.obj [("user", Json.null), ("access_token", Json.str "a"),
        ("refresh_token", Json.str "r")])
      Json.null (Json.str "a") (Json.str "r") rfl rfl rfl rfl⟩

/-- C4: calling a require_auth-gated method while no successful login or
refresh has completed raises the requires-login error and performs zero
transport calls; in particular search_illustrations does. -/
theorem claim_C4_require_auth_gate :
    (∀ (α : Type) (body : Unit → Except PyErr α × Nat),
      require_auth false body = (.error .requiresLogin, 0)) ∧
    (∀ (word : String) (search_target : SearchTarget) (sort : SortMode)
      (duration : Option Duration) (offset : Option Int)
      (resp : HttpResponse),
      search_illustrations_gated false word search_target sort duration
        offset resp = (.error .requiresLogin, 0)) :=
  ⟨fun _ _ => rfl, fun _ _ _ _ _ _ => rfl⟩

/-- C7: cursor extraction returns the named query parameter of a
next-page URL — the number 30 for offset in the given URL — and returns
None both for an absent URL and for a query string lacking the
requested parameter. -/
theorem claim_C7_parse_qs_cursor :
    parse_qs
        (some "https://app-api.pixiv.net/v1/search/illust?offset=30&foo=bar")
        "offset" = some (QsVal.num 30) ∧
    (∀ p, parse_qs Option.none p = Option.none) ∧
    (∀ url p, qsLookup (queryPairs url) p = Option.none →
      parse_qs (some url) p = Option.none) := by
  refine ⟨by rfl, fun p => rfl, ?_⟩
  intro url p h
  simp [parse_qs, h]

/-- C7 witness: a URL whose query string lacks the requested parameter
yields None. -/
theorem claim_C7_parse_qs_cursor_witness :
    qsLookup (queryPairs "https://x.net/a?foo=bar") "offset" = Option.none ∧
    parse_qs (some "https://x.net/a?foo=bar") "offset" = Option.none :=
  ⟨rfl, claim_C7_parse_qs_cursor.2.2 "https://x.net/a?foo=bar" "offset" rfl⟩

/-- C8: fetch_trending_tags builds each Illustration without the
client back-reference (the source omits client=self at this one call
site), while search_illustrations populates it — evaluating the code on
a concrete trending-tags response shows the claimed back-reference is
absent. -/
theorem claim_C8_trending_tags_client_missing :
    fetch_trending_tags 7 (Json.obj [("trend_tags", Json.arr
      [Json.obj [("illust", Json.obj [("id", Json.num 1)]),
                 ("tag", Json.str "t"), ("translated_name", Json.str "T")]])]) =
      .ok [⟨⟨[("id", Json.num 1)], Option.none⟩, Json.str "t", Json.str "T"⟩] ∧
    search_result_illustration 7 (Json.obj [("id", Json.num 1)]) =
      .ok ⟨[("id", Json.num 1)], some 7⟩ :=
  ⟨rfl, rfl⟩

/-- C10: the request built by fetch_illustrations_following does not
depend on its offset argument: the params are identical for every pair
of offsets, encode to exactly the restrict entry, and never contain an
offset parameter. -/
theorem claim_C10_following_offset_independent :
    ∀ (visibility : Visibility) (o1 o2 : Option Int),
      fetch_illustrations_following_params visibility o1 =
        fetch_illustrations_following_params visibility o2 ∧
      encodeParams (fetch_illustrations_following_params visibility o1) =
        [("restrict", visibility.value)] ∧
      "offset" ∉ requestKeys (fetch_illustrations_following_params visibility o1) := by
  intro v o1 o2
  refine ⟨rfl, rfl, ?_⟩
  simp [fetch_illustrations_following_params, requestKeys, encodeParams,
    encodeValue]

/-- C6: for every endpoint method, an optional parameter left unset
does not appear in the outgoing request at all; in particular
fetch_illustrations_recommended without
min_bookmark_id_for_recent_illustrations sends no
min_bookmark_id_for_recent_illust parameter. -/
theorem claim_C6_unset_params_omitted :
    (∀ (word : String) (search_target : SearchTarget) (sort : SortMode)
      (offset : Option Int), "duration" ∉ requestKeys
        (search_illustrations_params word search_target sort Option.none
          offset)) ∧
    (∀ (word : String) (search_target : SearchTarget) (sort : SortMode)
      (duration : Option Duration), "offset" ∉ requestKeys
        (search_illustrations_params word search_target sort duration
          Option.none)) ∧
    (∀ (illustration_id : Int) (itc : Bool), "offset" ∉ requestKeys
      (fetch_illustration_comments_params illustration_id Option.none itc)) ∧
    (∀ (illustration_id : Int), "offset" ∉ requestKeys
      (fetch_illustration_related_params illustration_id Option.none)) ∧
    (∀ (visibility : Visibility), "offset" ∉ requestKeys
      (fetch_illustrations_following_params visibility Option.none)) ∧
    (∀ (ct : ContentType) (irl : Bool) (minB offset : Option Int)
      (bids : Option (List Int)) (irlb : Bool),
      "max_bookmark_id_for_recommend" ∉ requestKeys
        (fetch_illustrations_recommended_params ct irl Option.none minB
          offset bids irlb)) ∧
    (∀ (ct : ContentType) (irl : Bool) (maxB offset : Option Int)
      (bids : Option (List Int)) (irlb : Bool),
      "min_bookmark_id_for_recent_illust" ∉ requestKeys
        (fetch_illustrations_recommended_params ct irl maxB Option.none
          offset bids irlb)) ∧
    (∀ (ct : ContentType) (irl : Bool) (maxB minB : Option Int)
      (bids : Option (List Int)) (irlb : Bool),
      "offset" ∉ requestKeys
        (fetch_illustrations_recommended_params ct irl maxB minB
          Option.none bids irlb)) ∧
    (∀ (ct : ContentType) (irl : Bool) (maxB minB offset : Option Int)
      (irlb : Bool),
      "bookmark_illust_ids" ∉ requestKeys
        (fetch_illustrations_recommended_params ct irl maxB minB offset
          Option.none irlb)) ∧
    (∀ (mode : RankingMode) (offset : Option Int), "date" ∉ requestKeys
      (fetch_illustrations_ranking_params mode Option.none offset)) ∧
    (∀ (mode : RankingMode) (date : Option String), "offset" ∉ requestKeys
      (fetch_illustrations_ranking_params mode date Option.none)) ∧
    (∀ (user_id : Int) (offset : Option Int), "type" ∉ requestKeys
      (fetch_user_illustrations_params user_id Option.none offset)) ∧
    (∀ (user_id : Int) (type_ : Option ContentType), "offset" ∉ requestKeys
      (fetch_user_illustrations_params user_id type_ Option.none)) ∧
    (∀ (user_id : Int) (visibility : Visibility) (tag : Option String),
      "max_bookmark_id" ∉ requestKeys
        (fetch_user_bookmarks_params user_id visibility Option.none tag)) ∧
    (∀ (user_id : Int) (visibility : Visibility) (maxB : Option Int),
      "tag" ∉ requestKeys
        (fetch_user_bookmarks_params user_id visibility maxB Option.none)) ∧
    (∀ (visibility : Visibility), "offset" ∉ requestKeys
      (fetch_user_bookmark_tags_params visibility Option.none)) ∧
    (∀ (user_id : Int) (visibility : Visibility), "offset" ∉ requestKeys
      (fetch_following_params user_id visibility Option.none)) ∧
    (∀ (user_id : Int), "offset" ∉ requestKeys
      (fetch_followers_params user_id Option.none)) ∧
    (∀ (user_id : Int), "offset" ∉ requestKeys
      (fetch_my_pixiv_params user_id Option.none)) := by
  refine ⟨?_, ?_, ?_, ?_, ?_, ?_, ?_, ?_, ?_, ?_, ?_, ?_, ?_, ?_, ?_, ?_,
    ?_, ?_, ?_⟩
  · intro word st so off
    cases off <;>
      simp [search_illustrations_params, requestKeys, encodeParams,
        encodeValue, encodeScalar, optInt]
  · intro word st so du
    cases du <;>
      simp [search_illustrations_params, requestKeys, encodeParams,
        encodeValue, encodeScalar, optInt]
  · intro iid itc
    simp [fetch_illustration_comments_params, requestKeys, encodeParams,
      encodeValue, encodeScalar, optInt]
  · intro iid
    simp [fetch_illustration_related_params, requestKeys, encodeParams,
      encodeValue, encodeScalar, optInt]
  · intro v
    simp [fetch_illustrations_following_params, requestKeys, encodeParams,
      encodeValue, encodeScalar, optInt]
  · intro ct irl minB off bids irlb
    rcases bids with _ | (_ | ⟨x, xs⟩) <;> cases minB <;> cases off <;>
      simp [fetch_illustrations_recommended_params, requestKeys,
        encodeParams, encodeValue, encodeScalar, optInt,
        List.filterMap_cons]
  · intro ct irl maxB off bids irlb
    rcases bids with _ | (_ | ⟨x, xs⟩) <;> cases maxB <;> cases off <;>
      simp [fetch_illustrations_recommended_params, requestKeys,
        encodeParams, encodeValue, encodeScalar, optInt,
        List.filterMap_cons]
  · intro ct irl maxB minB bids irlb
    rcases bids with _ | (_ | ⟨x, xs⟩) <;> cases maxB <;> cases minB <;>
      simp [fetch_illustrations_recommended_params, requestKeys,
        encodeParams, encodeValue, encodeScalar, optInt,
        List.filterMap_cons]
  · intro ct irl maxB minB off irlb
    cases maxB <;> cases minB <;> cases off <;>
      simp [fetch_illustrations_recommended_params, requestKeys,
        encodeParams, encodeValue, encodeScalar, optInt,
        List.filterMap_cons]
  · intro mode off
    cases off <;>
      simp [fetch_illustrations_ranking_params, requestKeys, encodeParams,
        encodeValue, encodeScalar, optInt, optStr]
  · intro mode date
    cases date <;>
      simp [fetch_illustrations_ranking_params, requestKeys, encodeParams,
        encodeValue, encodeScalar, optInt, optStr]
  · intro uid off
    cases off <;>
      simp [fetch_user_illustrations_params, requestKeys, encodeParams,
        encodeValue, encodeScalar, optInt]
  · intro uid ty
    cases ty <;>
      simp [fetch_user_illustrations_params, requestKeys, encodeParams,
        encodeValue, encodeScalar, optInt]
  · intro uid v tag
    cases tag <;>
      simp [fetch_user_bookmarks_params, requestKeys, encodeParams,
        encodeValue, encodeScalar, optInt, optStr]
  · intro uid v maxB
    cases maxB <;>
      simp [fetch_user_bookmarks_params, requestKeys, encodeParams,
        encodeValue, encodeScalar, optInt, optStr]
  · intro v
    simp [fetch_user_bookmark_tags_params, requestKeys, encodeParams,
      encodeValue, encodeScalar, optInt]
  · intro uid v
    simp [fetch_following_params, requestKeys, encodeParams, encodeValue,
      encodeScalar, optInt]
  · intro uid
    simp [fetch_followers_params, requestKeys, encodeParams, encodeValue,
      encodeScalar, optInt]
  · intro uid
    simp [fetch_my_pixiv_params, requestKeys, encodeParams, encodeValue,
      encodeScalar, optInt]
